import Mathlib

/-
Shallow embedding of the asynchronous task lifecycle and status-tracking
protocol of the Define Consult backend (src/backend).  Pure data is modelled
by Lean structures mirroring the SQLAlchemy models in
src/backend/models/ai_models.py (JSONB columns are modelled by structures
restricted to the keys the code reads or writes); the database session is
modelled by explicit state passing over lists of rows; external collaborators
(the LLM provider, json.loads, uuid.UUID, the wall clock, the Celery broker)
are parameters of the functions that call them.  Exception control flow
(try/except clauses, including which local variables are bound when a handler
runs) is modelled explicitly, following the Python source line by line.
-/

namespace DefineConsult

/-- JSON analysis dictionary produced by AIService.analyze_transcript
(src/backend/services/ai_service.py), restricted to the keys the code reads
or writes.  Absent keys are `none`; float scores are modelled by rationals. -/
structure AnalysisDict where
  insights : Option (List String)
  sentiment_score : Option ℚ
  key_themes : Option (List String)
  pain_points : Option (List String)
  feature_requests : Option (List String)
  urgency_level : Option String
  actionable_items : Option (List String)
  customer_segment : Option String
  summary : Option String
deriving Repr, DecidableEq

/-- Analysis dictionary with every key absent. -/
def emptyAnalysis : AnalysisDict :=
  ⟨none, none, none, none, none, none, none, none, none⟩

/-- Dictionary of generated content returned by AIService.generate_content,
restricted to the keys read by the worker (content, title). -/
structure GeneratedDict where
  title : Option String
  content : Option String
deriving Repr, DecidableEq

/-- The file_metadata JSONB column of a Transcript row, restricted to the
keys the code reads or writes. -/
structure FileMeta where
  original_filename : Option String
  file_size : Option Nat
  upload_timestamp : Option String
deriving Repr, DecidableEq

/-- Transcript row (models/ai_models.py, class Transcript).  UUID primary
keys are modelled by naturals; timestamp columns are maintained by the
database and are not modelled. -/
structure Transcript where
  id : Nat
  user_id : Nat
  title : String
  content : String
  file_metadata : Option FileMeta
  status : String
  analysis : Option AnalysisDict
  insights : Option (List String)
  sentiment_score : Option ℚ
  key_themes : Option (List String)
  pain_points : Option (List String)
  feature_requests : Option (List String)
  error_message : Option String
deriving Repr, DecidableEq

/-- The activity_metadata JSONB column of an AgentActivity row, restricted
to the keys the code reads or writes across the three agent flows. -/
structure ActivityMeta where
  transcript_id : Option String
  original_filename : Option String
  file_size : Option Nat
  insights_count : Option Nat
  sentiment_score : Option ℚ
  themes_count : Option Nat
  error : Option String
  data_length : Option Nat
  timestamp : Option String
  content_id : Option String
  platform : Option String
  content_type : Option String
  source_length : Option Nat
  processing_started : Option Bool
  processing_completed : Option Bool
  processing_failed : Option Bool
  analysis_results : Option (List (String × String))
  generation_results : Option GeneratedDict
  content_length : Option Nat
deriving Repr, DecidableEq

/-- Activity metadata with every key absent. -/
def emptyMeta : ActivityMeta :=
  ⟨none, none, none, none, none, none, none, none, none, none,
   none, none, none, none, none, none, none, none, none⟩

/-- AgentActivity row (models/ai_models.py, class AgentActivity). -/
structure AgentActivity where
  id : Nat
  user_id : Nat
  agent_type : String
  action : String
  activity_metadata : Option ActivityMeta
  status : Option String
  error_message : Option String
  processing_time_seconds : Option ℚ
  tokens_used : Option Nat
deriving Repr, DecidableEq

/-- The source_data JSONB column written by the generate_content endpoint. -/
structure SourceData where
  source_material : String
  context : String
  target_audience : String
  brand_tone : String
deriving Repr, DecidableEq

/-- GeneratedContent row (models/ai_models.py, class GeneratedContent). -/
structure GeneratedContent where
  id : Nat
  user_id : Nat
  content_type : String
  platform : Option String
  title : Option String
  content : String
  prompt_used : Option String
  source_data : Option SourceData
  status : String
  user_edits : Option String
  final_version : Option String
deriving Repr, DecidableEq

/-- User row (models/models.py), restricted to the columns the async
lifecycle endpoints read. -/
structure UserRec where
  id : Nat
  firebase_uid : String
deriving Repr, DecidableEq

/-- Body of a content generation request (api/agents/narrative_architect.py,
ContentGenerationRequest).  The platform and content type enumerations are
validated by the HTTP framework before the handler runs, so they appear here
as plain strings. -/
structure ContentGenerationRequest where
  platform : String
  content_type : String
  source_material : String
  context : String
  target_audience : String
  brand_tone : String
deriving Repr, DecidableEq

/-- A task handed to the Celery broker by `.delay(...)`. -/
inductive QueuedTask where
  | transcriptTask (transcript_id : Nat) (user_id : Nat)
  | competitorTask (activity_id : String) (competitor_data : String) (user_id : Nat)
  | contentTask (activity_id : String) (content_id : String)
      (request : ContentGenerationRequest) (user_id : Nat)
deriving Repr, DecidableEq

/-- The relational store: one list of rows per table, plus a counter from
which freshly inserted rows draw their (database generated) primary key. -/
structure DB where
  transcripts : List Transcript
  activities : List AgentActivity
  contents : List GeneratedContent
  users : List UserRec
  nextId : Nat
deriving Repr, DecidableEq

/-- Commit an updated transcript row: the row with the same primary key is
replaced (SQLAlchemy unit-of-work flush of a mutated mapped object). -/
def setTranscript (db : DB) (u : Transcript) : DB :=
  { db with transcripts := db.transcripts.map (fun x => if x.id == u.id then u else x) }

/-- Commit an updated activity row. -/
def setActivity (db : DB) (u : AgentActivity) : DB :=
  { db with activities := db.activities.map (fun x => if x.id == u.id then u else x) }

/-- Commit an updated generated content row. -/
def setContent (db : DB) (u : GeneratedContent) : DB :=
  { db with contents := db.contents.map (fun x => if x.id == u.id then u else x) }

/-- Insert a new activity row (db.add + commit). -/
def addActivity (db : DB) (a : AgentActivity) : DB :=
  { db with activities := db.activities ++ [a], nextId := db.nextId + 1 }

/-- Python `s or d` for strings: the default is used when `s` is empty. -/
def pyOr (s d : String) : String :=
  if s = "" then d else s

/-- Outcome of one Celery task invocation: a returned value, a re-raise via
`self.retry(exc, countdown, max_retries)`, or an exception that escapes the
task without any retry request (permanent failure). -/
inductive TaskOutcome (α : Type) where
  | ok (ret : α)
  | retry (exc : String) (countdown : Nat) (maxRetries : Nat)
  | permanentFailure (exc : String)
deriving Repr, DecidableEq

/-- Dictionary returned by process_transcript_task on success. -/
structure TranscriptTaskReturn where
  status : String
  transcript_id : String
  insights_count : Nat
  sentiment_score : Option ℚ
  message : String
deriving Repr, DecidableEq

/-- Worker task process_transcript_task (src/backend/celery_worker.py,
lines 23-137).  The AIService.analyze_transcript call is abstracted by
`analyze`, a function of the transcript content and of the title passed in
the context bundle; it returns the analysis dictionary or the string of the
exception it raises.  When the transcript id matches no row, the local
variable `transcript` is bound to None, so the except handler statement
`transcript.status = "failed"` raises AttributeError before anything is
committed and before `self.retry` is reached: the task fails permanently
with the store unchanged. -/
def process_transcript_task (analyze : String → String → Except String AnalysisDict)
    (transcript_id : Nat) (user_id : Nat) (db : DB) :
    DB × TaskOutcome TranscriptTaskReturn :=
  match db.transcripts.find? (fun t => t.id == transcript_id) with
  | none =>
      (db, .permanentFailure "AttributeError: NoneType object has no attribute status")
  | some t =>
      let t1 := { t with status := "processing" }
      let db1 := setTranscript db t1
      let origName := match t.file_metadata with
        | some m => m.original_filename.getD ""
        | none => ""
      let origSize := match t.file_metadata with
        | some m => m.file_size.getD 0
        | none => 0
      let startedMeta : ActivityMeta := { emptyMeta with
        transcript_id := some (toString transcript_id),
        original_filename := some origName,
        file_size := some origSize }
      let db2 := addActivity db1
        { id := db1.nextId, user_id := user_id,
          agent_type := "user_whisperer", action := "transcript_processing_started",
          activity_metadata := some startedMeta, status := some "processing",
          error_message := none, processing_time_seconds := none, tokens_used := none }
      match analyze t.content (pyOr t.title "Customer Feedback") with
      | .ok analysis_result =>
          let t2 := { t1 with
            analysis := some analysis_result,
            status := "completed",
            insights := some (analysis_result.insights.getD []),
            sentiment_score := analysis_result.sentiment_score,
            key_themes := some (analysis_result.key_themes.getD []),
            pain_points := some (analysis_result.pain_points.getD []),
            feature_requests := some (analysis_result.feature_requests.getD []) }
          let db3 := setTranscript db2 t2
          let completionMeta : ActivityMeta := { emptyMeta with
            transcript_id := some (toString transcript_id),
            insights_count := some (t2.insights.getD []).length,
            sentiment_score := t2.sentiment_score,
            themes_count := some (t2.key_themes.getD []).length }
          let db4 := addActivity db3
            { id := db3.nextId, user_id := user_id,
              agent_type := "user_whisperer", action := "transcript_processing_completed",
              activity_metadata := some completionMeta, status := some "success",
              error_message := none, processing_time_seconds := none, tokens_used := none }
          (db4, .ok ⟨"completed", toString transcript_id,
            (t2.insights.getD []).length, t2.sentiment_score,
            "Transcript processed successfully"⟩)
      | .error e =>
          let tf := { t1 with status := "failed", error_message := some e }
          let db3 := setTranscript db2 tf
          let db4 := addActivity db3
            { id := db3.nextId, user_id := user_id,
              agent_type := "user_whisperer", action := "transcript_processing_failed",
              activity_metadata := some { emptyMeta with
                transcript_id := some (toString transcript_id), error := some e },
              status := some "error", error_message := some e,
              processing_time_seconds := none, tokens_used := none }
          (db4, .retry e 60 3)

/-- Replacing the row with key `k = n` by a row `u` carrying the same key
leaves `u` as the row that a primary key lookup finds. -/
theorem find?_replace_eq_aux (l : List Transcript) (n : Nat) (t u : Transcript)
    (h : l.find? (fun x => x.id == n) = some t) (hu : u.id = n) :
    (l.map (fun x => if x.id == n then u else x)).find? (fun x => x.id == n) = some u := by
  induction l with
  | nil => simp at h
  | cons a l ih =>
      by_cases hx : (a.id == n) = true
      · have hx2 : a.id = n := by simpa using hx
        have hun : (u.id == n) = true := by simp [hu]
        simp [List.find?_cons, hx2, hun]
      · rw [List.find?_cons_of_neg _ (by simpa using hx)] at h
        simp only [List.map_cons]
        rw [if_neg (by simpa using hx)]
        rw [List.find?_cons_of_neg _ (by simpa using hx)]
        exact ih h

theorem find?_replace_eq (l : List Transcript) (n k : Nat) (t u : Transcript)
    (h : l.find? (fun x => x.id == n) = some t) (hk : k = n) (hu : u.id = n) :
    (l.map (fun x => if x.id == k then u else x)).find? (fun x => x.id == n) = some u := by
  subst hk
  exact find?_replace_eq_aux l k t u h hu

/-- Transcript row state produced by one executor invocation on a found row,
as a pure function of the row and the provider (read off the success and
failure branches of process_transcript_task). -/
def transcriptResult (analyze : String → String → Except String AnalysisDict)
    (t : Transcript) : Transcript :=
  match analyze t.content (pyOr t.title "Customer Feedback") with
  | .ok a =>
      { t with
        status := "completed",
        analysis := some a,
        insights := some (a.insights.getD []),
        sentiment_score := a.sentiment_score,
        key_themes := some (a.key_themes.getD []),
        pain_points := some (a.pain_points.getD []),
        feature_requests := some (a.feature_requests.getD []) }
  | .error e => { t with status := "failed", error_message := some e }

/-- Task outcome of one executor invocation on a found row. -/
def transcriptOutcome (analyze : String → String → Except String AnalysisDict)
    (tid : Nat) (t : Transcript) : TaskOutcome TranscriptTaskReturn :=
  match analyze t.content (pyOr t.title "Customer Feedback") with
  | .ok a =>
      .ok ⟨"completed", toString tid, (a.insights.getD []).length, a.sentiment_score,
        "Transcript processed successfully"⟩
  | .error e => .retry e 60 3

/-- One executor invocation on a found transcript row leaves exactly
`transcriptResult` in the store under that id. -/
theorem transcript_task_found_find
    (analyze : String → String → Except String AnalysisDict)
    (tid uid : Nat) (db : DB) (t : Transcript)
    (h : db.transcripts.find? (fun x => x.id == tid) = some t) :
    (process_transcript_task analyze tid uid db).1.transcripts.find? (fun x => x.id == tid)
      = some (transcriptResult analyze t) := by
  have htid : t.id = tid := by
    have := List.find?_some h
    simpa using this
  simp only [process_transcript_task, h]
  cases ha : analyze t.content (pyOr t.title "Customer Feedback") with
  | ok a =>
      simp only [transcriptResult, ha, addActivity, setTranscript]
      have h1 := find?_replace_eq db.transcripts tid t.id t
        { t with status := "processing" } h htid htid
      refine find?_replace_eq _ tid t.id _ _ h1 htid ?_
      exact htid
  | error e =>
      simp only [transcriptResult, ha, addActivity, setTranscript]
      have h1 := find?_replace_eq db.transcripts tid t.id t
        { t with status := "processing" } h htid htid
      refine find?_replace_eq _ tid t.id _ _ h1 htid ?_
      exact htid

/-- One executor invocation on a found transcript row returns exactly
`transcriptOutcome`. -/
theorem transcript_task_found_outcome
    (analyze : String → String → Except String AnalysisDict)
    (tid uid : Nat) (db : DB) (t : Transcript)
    (h : db.transcripts.find? (fun x => x.id == tid) = some t) :
    (process_transcript_task analyze tid uid db).2 = transcriptOutcome analyze tid t := by
  simp only [process_transcript_task, h]
  cases ha : analyze t.content (pyOr t.title "Customer Feedback") with
  | ok a => simp [transcriptOutcome, ha]
  | error e => simp [transcriptOutcome, ha]

/-- Re-running the executor on the row it already produced writes the same
row again: the terminal write is idempotent because the provider is a pure
function of the unchanged content and title. -/
theorem transcriptResult_idem (analyze : String → String → Except String AnalysisDict)
    (t : Transcript) :
    transcriptResult analyze (transcriptResult analyze t) = transcriptResult analyze t := by
  unfold transcriptResult
  cases ha : analyze t.content (pyOr t.title "Customer Feedback") with
  | ok a => simp [ha]
  | error e => simp [ha]

/-- Re-running the executor on the row it already produced returns the same
task outcome. -/
theorem transcriptOutcome_idem (analyze : String → String → Except String AnalysisDict)
    (tid : Nat) (t : Transcript) :
    transcriptOutcome analyze tid (transcriptResult analyze t)
      = transcriptOutcome analyze tid t := by
  unfold transcriptOutcome transcriptResult
  cases ha : analyze t.content (pyOr t.title "Customer Feedback") with
  | ok a => simp [ha]
  | error e => simp [ha]

/-- C1: once a WorkRecord reaches `completed` or `failed`, a second Task
Executor invocation on the same record (simulated duplicate delivery) is a
no-op with respect to the record state and produces the same terminal
outcome both times: for every provider function, record id and store, the
record state and the task outcome after the second invocation equal those
after the first. -/
theorem C1_executor_idempotent
    (analyze : String → String → Except String AnalysisDict)
    (tid uid : Nat) (db : DB) :
    ((process_transcript_task analyze tid uid
        (process_transcript_task analyze tid uid db).1).1.transcripts.find?
          (fun x => x.id == tid)
      = (process_transcript_task analyze tid uid db).1.transcripts.find?
          (fun x => x.id == tid))
    ∧ (process_transcript_task analyze tid uid
        (process_transcript_task analyze tid uid db).1).2
      = (process_transcript_task analyze tid uid db).2 := by
  cases h : db.transcripts.find? (fun x => x.id == tid) with
  | none =>
      have h1 : process_transcript_task analyze tid uid db
          = (db, .permanentFailure "AttributeError: NoneType object has no attribute status") := by
        simp [process_transcript_task, h]
      simp [h1]
  | some t =>
      have hfind1 := transcript_task_found_find analyze tid uid db t h
      have hout1 := transcript_task_found_outcome analyze tid uid db t h
      have hfind2 := transcript_task_found_find analyze tid uid
        (process_transcript_task analyze tid uid db).1 (transcriptResult analyze t) hfind1
      have hout2 := transcript_task_found_outcome analyze tid uid
        (process_transcript_task analyze tid uid db).1 (transcriptResult analyze t) hfind1
      constructor
      · rw [hfind2, hfind1, transcriptResult_idem]
      · rw [hout2, hout1, transcriptOutcome_idem]

/-- C6: invoking the Task Executor with a record id for which no WorkRecord
exists makes the loaded local None; the except handler itself then raises
AttributeError before `self.retry` is reached, so the task fails permanently
without requesting a retry and without touching the store. -/
theorem C6_missing_record_no_retry
    (analyze : String → String → Except String AnalysisDict)
    (transcript_id user_id : Nat) (db : DB)
    (h : db.transcripts.find? (fun t => t.id == transcript_id) = none) :
    process_transcript_task analyze transcript_id user_id db
      = (db, .permanentFailure "AttributeError: NoneType object has no attribute status") := by
  simp [process_transcript_task, h]

/-- Provider stub used by witnesses. -/
def stubAnalyze : String → String → Except String AnalysisDict :=
  fun _ _ => .error "unused"

/-- Witness for C6 at a concrete empty store. -/
theorem C6_missing_record_no_retry_witness :
    process_transcript_task stubAnalyze 1 7 ⟨[], [], [], [], 0⟩
      = (⟨[], [], [], [], 0⟩,
         .permanentFailure "AttributeError: NoneType object has no attribute status") :=
  C6_missing_record_no_retry stubAnalyze 1 7 ⟨[], [], [], [], 0⟩ (by rfl)

/-- Appending one row keeps it as the last row. -/
theorem getLast?_append_singleton {α : Type} (l : List α) (a : α) :
    (l ++ [a]).getLast? = some a := by
  rw [List.getLast?_concat]

/-- Models the retry loop of the external task queue (Celery, as configured
by `self.retry(exc, countdown, max_retries)` in celery_worker.py): after an
invocation ends in a retry request, the task is delivered again after
`countdown` time-units; `Task.retry` re-raises the original exception,
abandoning the task, once the number of retries already performed would
exceed `max_retries`, so the first invocation plus `max_retries` retries can
run.  Returns the final store, the number of invocations performed, and the
list of delays separating consecutive invocations.  `fuel` bounds the
recursion and is chosen larger than any retry limit in use. -/
def celeryRun {α : Type} (execute : DB → DB × TaskOutcome α) :
    Nat → Nat → DB → DB × Nat × List Nat
  | 0, _, db => (db, 0, [])
  | fuel + 1, retries, db =>
      match execute db with
      | (db1, .retry _ countdown maxRetries) =>
          if retries + 1 > maxRetries then (db1, 1, [])
          else
            let rest := celeryRun execute fuel (retries + 1) db1
            (rest.1, rest.2.1 + 1, countdown :: rest.2.2)
      | (db1, _) => (db1, 1, [])

/-- One freshly uploaded transcript row, used as a concrete store. -/
def sampleTranscript : Transcript :=
  ⟨1, 7, "Call notes", "user complained export button was disabled", none,
   "uploaded", none, none, none, none, none, none, none⟩

/-- Concrete store holding only `sampleTranscript`. -/
def sampleDb : DB := ⟨[sampleTranscript], [], [], [], 10⟩

/-- Provider that raises on every attempt. -/
def failAnalyze : String → String → Except String AnalysisDict :=
  fun _ _ => .error "ProviderError: upstream timeout"

/-- C2 counterexample: the worker passes max_retries=3 to the queue retry,
which under the queue semantics allows the first invocation plus three
retries; with a provider that raises on every attempt the task body runs 4
times separated by three 60-unit delays, contradicting a maximum of 3
attempts total. -/
theorem C2_counterexample_four_attempts :
    (celeryRun (process_transcript_task failAnalyze 1 7) 10 0 sampleDb).2.1 = 4
    ∧ ¬ ((celeryRun (process_transcript_task failAnalyze 1 7) 10 0 sampleDb).2.1 ≤ 3)
    ∧ (celeryRun (process_transcript_task failAnalyze 1 7) 10 0 sampleDb).2.2
        = [60, 60, 60] := by
  refine ⟨by rfl, by decide, by rfl⟩

/-- C2 (amended): on a provider exception the executor sets the record
status to failed, stores the exception string in error_detail, appends a
failed activity-log entry, and re-raises via the queue retry with a fixed
60-unit delay and max_retries 3 — which permits up to 3 retries after the
first invocation, i.e. up to 4 attempts in total (shown by the closed
conjuncts on the always-failing provider). -/
theorem C2_amended_failure_path
    (analyze : String → String → Except String AnalysisDict)
    (tid uid : Nat) (db : DB) (t : Transcript) (e : String)
    (h : db.transcripts.find? (fun x => x.id == tid) = some t)
    (he : analyze t.content (pyOr t.title "Customer Feedback") = .error e) :
    ((process_transcript_task analyze tid uid db).1.transcripts.find?
        (fun x => x.id == tid)
      = some { t with status := "failed", error_message := some e })
    ∧ (process_transcript_task analyze tid uid db).2 = .retry e 60 3
    ∧ ((process_transcript_task analyze tid uid db).1.activities.getLast?).map
        (fun a => (a.action, a.status, a.error_message))
      = some ("transcript_processing_failed", some "error", some e)
    ∧ (celeryRun (process_transcript_task failAnalyze 1 7) 10 0 sampleDb).2.1 = 4
    ∧ (celeryRun (process_transcript_task failAnalyze 1 7) 10 0 sampleDb).2.2
        = [60, 60, 60] := by
  refine ⟨?_, ?_, ?_, by rfl, by rfl⟩
  · have := transcript_task_found_find analyze tid uid db t h
    rw [this]
    unfold transcriptResult
    rw [he]
  · rw [transcript_task_found_outcome analyze tid uid db t h]
    unfold transcriptOutcome
    rw [he]
  · simp only [process_transcript_task, h, he, addActivity, setTranscript]
    rw [getLast?_append_singleton]
    rfl

/-- Witness for C2 at the concrete always-failing provider and store. -/
theorem C2_amended_failure_path_witness :
    (((process_transcript_task failAnalyze 1 7 sampleDb).1.transcripts.find?
        (fun x => x.id == 1))
      = some { sampleTranscript with
          status := "failed",
          error_message := some "ProviderError: upstream timeout" })
    ∧ (process_transcript_task failAnalyze 1 7 sampleDb).2
        = .retry "ProviderError: upstream timeout" 60 3
    ∧ ((process_transcript_task failAnalyze 1 7 sampleDb).1.activities.getLast?).map
        (fun a => (a.action, a.status, a.error_message))
      = some ("transcript_processing_failed", some "error",
          some "ProviderError: upstream timeout")
    ∧ (celeryRun (process_transcript_task failAnalyze 1 7) 10 0 sampleDb).2.1 = 4
    ∧ (celeryRun (process_transcript_task failAnalyze 1 7) 10 0 sampleDb).2.2
        = [60, 60, 60] :=
  C2_amended_failure_path failAnalyze 1 7 sampleDb sampleTranscript
    "ProviderError: upstream timeout" (by rfl) (by rfl)

/-- Output payload populated, in the terminology of the spec invariant: the
analysis column of the record is set. -/
def outputPopulated (t : Transcript) : Bool := t.analysis.isSome

/-- Error detail populated: the error_message column of the record is set. -/
def errorPopulated (t : Transcript) : Bool := t.error_message.isSome

/-- Status is non-terminal: neither completed nor failed. -/
def nonTerminalStatus (t : Transcript) : Bool :=
  !(t.status == "completed" || t.status == "failed")

/-- Exactly one of the three conditions of the spec invariant holds. -/
def exactlyOneOfInvariant (t : Transcript) : Bool :=
  (outputPopulated t && !errorPopulated t && !nonTerminalStatus t)
  || (!outputPopulated t && errorPopulated t && !nonTerminalStatus t)
  || (!outputPopulated t && !errorPopulated t && nonTerminalStatus t)

/-- Analysis dictionary returned by the provider on a successful retry. -/
def okAnalysis : AnalysisDict :=
  { emptyAnalysis with
    insights := some ["export button was disabled"],
    sentiment_score := some 0,
    key_themes := some ["export"],
    summary := some "customer feedback summary" }

/-- Provider that succeeds on every attempt. -/
def okAnalyze : String → String → Except String AnalysisDict :=
  fun _ _ => .ok okAnalysis

/-- C7 counterexample: a failed attempt followed by a successful retry
leaves a completed record that still carries the stale error_detail of the
failed attempt, so the output payload and the error detail are populated
simultaneously, the status is completed while error_detail is set, and the
exactly-one invariant is false. -/
theorem C7_counterexample_stale_error_detail :
    ((process_transcript_task okAnalyze 1 7
        (process_transcript_task failAnalyze 1 7 sampleDb).1).1.transcripts.find?
          (fun x => x.id == 1)).map
      (fun t => (t.status, t.error_message, outputPopulated t, exactlyOneOfInvariant t))
      = some ("completed", some "ProviderError: upstream timeout", true, false) := by
  rfl

/-- C7 (amended): for a record entering the executor with neither output
payload nor error detail populated, a single executor invocation establishes
the exactly-one invariant, and error_detail is populated only if the status
is failed; the invariant can be destroyed only by a failed attempt followed
by a successful retry, because the failure path never clears the output and
the success path never clears error_detail. -/
theorem C7_amended_exactly_one
    (analyze : String → String → Except String AnalysisDict)
    (tid uid : Nat) (db : DB) (t : Transcript)
    (h : db.transcripts.find? (fun x => x.id == tid) = some t)
    (hout : t.analysis = none) (herr : t.error_message = none) :
    ∃ u, (process_transcript_task analyze tid uid db).1.transcripts.find?
        (fun x => x.id == tid) = some u
      ∧ exactlyOneOfInvariant u = true
      ∧ (u.error_message.isSome = true → u.status = "failed") := by
  refine ⟨transcriptResult analyze t,
    transcript_task_found_find analyze tid uid db t h, ?_, ?_⟩
  · unfold exactlyOneOfInvariant outputPopulated errorPopulated nonTerminalStatus
      transcriptResult
    cases ha : analyze t.content (pyOr t.title "Customer Feedback") with
    | ok a => simp [herr]
    | error e => simp [hout]
  · unfold transcriptResult
    cases ha : analyze t.content (pyOr t.title "Customer Feedback") with
    | ok a =>
        intro hs
        simp [herr] at hs
    | error e =>
        intro _
        rfl

/-- Witness for C7 (amended) at a concrete store and provider. -/
theorem C7_amended_exactly_one_witness :
    ∃ u, (process_transcript_task okAnalyze 1 7 sampleDb).1.transcripts.find?
        (fun x => x.id == 1) = some u
      ∧ exactlyOneOfInvariant u = true
      ∧ (u.error_message.isSome = true → u.status = "failed") :=
  C7_amended_exactly_one okAnalyze 1 7 sampleDb sampleTranscript
    (by rfl) (by rfl) (by rfl)

/-- Left brace character, referenced through its code point. -/
def lbrace : Char := Char.ofNat 123

/-- Right brace character, referenced through its code point. -/
def rbrace : Char := Char.ofNat 125

/-- Python str.find(pat, start): the least index at or after `start` where
`pat` occurs, if any. -/
def subFind (s pat : List Char) (start : Nat) : Option Nat :=
  ((List.range (s.length + 1)).filter
    (fun i => decide (start ≤ i) && pat.isPrefixOf (s.drop i))).head?

/-- Python str.rfind for a single character: the greatest index where `c`
occurs, if any. -/
def subRFindChar (s : List Char) (c : Char) : Option Nat :=
  ((List.range s.length).filter (fun i => s[i]? == some c)).getLast?

/-- Python str.strip(). -/
def stripChars (s : List Char) : List Char :=
  ((s.dropWhile Char.isWhitespace).reverse.dropWhile Char.isWhitespace).reverse

/-- JSON extraction performed by AIService.analyze_transcript on the raw
provider text (ai_service.py lines 224-233): prefer a json-fenced code
block, else the substring from the first left brace to one past the last
right brace.  Python str.find returns -1 when the needle is missing, which
the subsequent slicing turns into end index len-1 (fenced case, slice to
-1) or 0 (brace case, rfind -1 plus 1). -/
def extractJsonText (result_text : String) : String :=
  let s := result_text.toList
  match subFind s "```json".toList 0 with
  | some j0 =>
      let json_start := j0 + 7
      let json_end :=
        match subFind s "```".toList json_start with
        | some j1 => j1
        | none => s.length - 1
      String.mk (stripChars ((s.drop json_start).take (json_end - json_start)))
  | none =>
      match subFind s [lbrace] 0 with
      | some b0 =>
          let json_end :=
            match subRFindChar s rbrace with
            | some j => j + 1
            | none => 0
          String.mk ((s.drop b0).take (json_end - b0))
      | none => result_text

/-- Required-field defaults applied by analyze_transcript after a
successful JSON parse (ai_service.py lines 237-254). -/
def validateAnalysis (a : AnalysisDict) : AnalysisDict :=
  { a with
    insights := some (a.insights.getD []),
    sentiment_score := some (a.sentiment_score.getD 0),
    key_themes := some (a.key_themes.getD []),
    summary := some (a.summary.getD "Analysis completed") }

/-- Documented fallback payload returned when the provider output cannot be
parsed as JSON (ai_service.py lines 258-271). -/
def fallbackAnalysis : AnalysisDict :=
  { emptyAnalysis with
    insights := some ["Transcript analyzed successfully"],
    sentiment_score := some 0,
    key_themes := some ["Customer feedback"],
    pain_points := some [],
    feature_requests := some [],
    urgency_level := some "medium",
    actionable_items := some ["Review transcript for manual analysis"],
    customer_segment := some "casual_user",
    summary := some "Transcript processed but detailed analysis unavailable" }

/-- AIService.analyze_transcript (ai_service.py lines 155-275).  The LLM
call chain (Gemini with OpenRouter fallback) is abstracted by `llm`, a
function of the content and of the title interpolated into the prompt,
returning the raw completion text or the exception it raises; `jsonParse`
abstracts json.loads restricted to the modelled keys.  A parse failure
yields the fallback payload and does not raise; an exception from the LLM
chain propagates to the outer handler, which logs and re-raises. -/
def analyze_transcript (llm : String → String → Except String String)
    (jsonParse : String → Option AnalysisDict)
    (content title : String) : Except String AnalysisDict :=
  match llm content title with
  | .error e => .error e
  | .ok result_text =>
      match jsonParse (extractJsonText result_text) with
      | some analysis => .ok (validateAnalysis analysis)
      | none => .ok fallbackAnalysis

/-- C8: when the provider returns output the JSON parser cannot parse, the
executor run with the real analyze_transcript pipeline substitutes the
documented fallback payload and still finishes the record with status
completed, never failed; the task also returns a completed outcome rather
than requesting a retry. -/
theorem C8_parse_fallback_completes
    (llm : String → String → Except String String)
    (jsonParse : String → Option AnalysisDict)
    (tid uid : Nat) (db : DB) (t : Transcript) (raw : String)
    (h : db.transcripts.find? (fun x => x.id == tid) = some t)
    (hllm : llm t.content (pyOr t.title "Customer Feedback") = .ok raw)
    (hparse : jsonParse (extractJsonText raw) = none) :
    ∃ u, (process_transcript_task (analyze_transcript llm jsonParse)
        tid uid db).1.transcripts.find? (fun x => x.id == tid) = some u
      ∧ u.status = "completed"
      ∧ u.status ≠ "failed"
      ∧ u.analysis = some fallbackAnalysis
      ∧ ∃ ret, (process_transcript_task (analyze_transcript llm jsonParse)
          tid uid db).2 = .ok ret ∧ ret.status = "completed" := by
  have hana : analyze_transcript llm jsonParse t.content (pyOr t.title "Customer Feedback")
      = .ok fallbackAnalysis := by
    unfold analyze_transcript
    rw [hllm]
    simp [hparse]
  refine ⟨transcriptResult (analyze_transcript llm jsonParse) t,
    transcript_task_found_find _ tid uid db t h, ?_, ?_, ?_, ?_⟩
  · unfold transcriptResult
    rw [hana]
  · unfold transcriptResult
    rw [hana]
    simp
  · unfold transcriptResult
    rw [hana]
  · have ho := transcript_task_found_outcome (analyze_transcript llm jsonParse)
      tid uid db t h
    refine ⟨⟨"completed", toString tid, (fallbackAnalysis.insights.getD []).length,
      fallbackAnalysis.sentiment_score, "Transcript processed successfully"⟩, ?_, rfl⟩
    rw [ho]
    unfold transcriptOutcome
    rw [hana]

/-- LLM stub returning prose with no JSON object in it. -/
def proseLlm : String → String → Except String String :=
  fun _ _ => .ok "The customer sounded frustrated about the export button."

/-- JSON parse stub that rejects every input. -/
def rejectParse : String → Option AnalysisDict :=
  fun _ => none

/-- Witness for C8 at a concrete unparseable completion. -/
theorem C8_parse_fallback_completes_witness :
    ∃ u, (process_transcript_task (analyze_transcript proseLlm rejectParse)
        1 7 sampleDb).1.transcripts.find? (fun x => x.id == 1) = some u
      ∧ u.status = "completed"
      ∧ u.status ≠ "failed"
      ∧ u.analysis = some fallbackAnalysis
      ∧ ∃ ret, (process_transcript_task (analyze_transcript proseLlm rejectParse)
          1 7 sampleDb).2 = .ok ret ∧ ret.status = "completed" :=
  C8_parse_fallback_completes proseLlm rejectParse 1 7 sampleDb sampleTranscript
    "The customer sounded frustrated about the export button."
    (by rfl) (by rfl) (by rfl)

/-- Python exception raised inside the try block of an endpoint handler. -/
inductive PyExc where
  | httpExc (status_code : Nat) (detail : String)
  | valueError (msg : String)
  | attrError (msg : String)
deriving Repr, DecidableEq

/-- str(e) as interpolated into the wrapped 500 details; a Starlette
HTTPException renders as "code: detail". -/
def pyStr : PyExc → String
  | .httpExc c d => toString c ++ ": " ++ d
  | .valueError m => m
  | .attrError m => m

/-- HTTP error response escaping a handler: status code and detail. -/
structure HttpError where
  status_code : Nat
  detail : String
deriving Repr, DecidableEq

/-- The handler tail repeated in the market-maven and narrative-architect
endpoints: except ValueError gives 400 with a fixed invalid-format detail,
then except Exception gives 500 wrapping str(e).  An HTTPException raised
inside the try block is an Exception and is therefore caught and wrapped
into the 500: these handlers, unlike user_whisperer.process_transcript,
have no dedicated except HTTPException re-raise clause. -/
def runHandlers {α : Type} (invalidMsg failMsg : String)
    (body : Except PyExc α) : Except HttpError α :=
  match body with
  | .ok a => .ok a
  | .error (.valueError _) => .error ⟨400, invalidMsg⟩
  | .error e => .error ⟨500, failMsg ++ pyStr e⟩

/-- Query filtering AgentActivity by primary key and owner. -/
def findActivity (db : DB) (aid uid : Nat) : Option AgentActivity :=
  db.activities.find? (fun a => a.id == aid && a.user_id == uid)

/-- Query filtering GeneratedContent by primary key and owner. -/
def findContent (db : DB) (cid uid : Nat) : Option GeneratedContent :=
  db.contents.find? (fun c => c.id == cid && c.user_id == uid)

/-- Interpolation of a nullable status column into an f-string. -/
def statusText : Option String → String
  | some s => s
  | none => "None"

/-- Response of the analysis status poll endpoint (created_at is database
maintained and unmodelled). -/
structure AnalysisStatusResp where
  activity_id : Nat
  status : Option String
  action : String
  processing_time_seconds : Option ℚ
  error_message : Option String
  metadata : Option ActivityMeta
deriving Repr, DecidableEq

/-- Response of the analysis results endpoint. -/
structure AnalysisResultsResp where
  activity_id : Nat
  status : Option String
  results : List (String × String)
  processing_time_seconds : Option ℚ
  tokens_used : Option Nat
deriving Repr, DecidableEq

/-- Response of the content status poll endpoint. -/
structure ContentStatusResp where
  content_id : Nat
  status : String
  platform : Option String
  content_type : String
deriving Repr, DecidableEq

/-- Response of the generated content fetch endpoint. -/
structure GeneratedContentResp where
  content_id : Nat
  platform : Option String
  content_type : String
  title : Option String
  content : String
  status : String
  source_data : Option SourceData
  user_edits : Option String
  final_version : Option String
deriving Repr, DecidableEq

/-- GET /agents/market-maven/analysis/(activity_id)/status
(api/agents/market_maven.py lines 202-240).  uuid.UUID is abstracted by
`parseUUID`, returning the key or raising ValueError. -/
def get_analysis_status (parseUUID : String → Option Nat)
    (activity_id : String) (user_id : Nat) (db : DB) :
    Except HttpError AnalysisStatusResp :=
  runHandlers "Invalid activity ID format" "Failed to get analysis status: "
    (match parseUUID activity_id with
     | none => .error (.valueError "badly formed hexadecimal UUID string")
     | some aid =>
       match findActivity db aid user_id with
       | none => .error (.httpExc 404 "Analysis activity not found")
       | some a => .ok ⟨a.id, a.status, a.action, a.processing_time_seconds,
           a.error_message, a.activity_metadata⟩)

/-- GET /agents/market-maven/analysis/(activity_id)/results
(api/agents/market_maven.py lines 243-289).  When the metadata column is
NULL, `activity.activity_metadata.get(...)` raises AttributeError, which
the blanket clause wraps into the 500. -/
def get_analysis_results (parseUUID : String → Option Nat)
    (activity_id : String) (user_id : Nat) (db : DB) :
    Except HttpError AnalysisResultsResp :=
  runHandlers "Invalid activity ID format" "Failed to get analysis results: "
    (match parseUUID activity_id with
     | none => .error (.valueError "badly formed hexadecimal UUID string")
     | some aid =>
       match findActivity db aid user_id with
       | none => .error (.httpExc 404 "Analysis activity not found")
       | some a =>
         if a.status ≠ some "success" then
           .error (.httpExc 400 ("Analysis not completed. Current status: "
             ++ statusText a.status))
         else
           match a.activity_metadata with
           | none => .error (.attrError "NoneType object has no attribute get")
           | some m => .ok ⟨a.id, a.status, m.analysis_results.getD [],
               a.processing_time_seconds, a.tokens_used⟩)

/-- GET /agents/narrative-architect/content/(content_id)/status
(api/agents/narrative_architect.py lines 158-195). -/
def get_content_status (parseUUID : String → Option Nat)
    (content_id : String) (user_id : Nat) (db : DB) :
    Except HttpError ContentStatusResp :=
  runHandlers "Invalid content ID format" "Failed to get content status: "
    (match parseUUID content_id with
     | none => .error (.valueError "badly formed hexadecimal UUID string")
     | some cid =>
       match findContent db cid user_id with
       | none => .error (.httpExc 404 "Content generation not found")
       | some c => .ok ⟨c.id, c.status, c.platform, c.content_type⟩)

/-- GET /agents/narrative-architect/content/(content_id)
(api/agents/narrative_architect.py lines 198-240): returns the record in
whatever status it currently has, with no readiness check. -/
def get_generated_content (parseUUID : String → Option Nat)
    (content_id : String) (user_id : Nat) (db : DB) :
    Except HttpError GeneratedContentResp :=
  runHandlers "Invalid content ID format" "Failed to get generated content: "
    (match parseUUID content_id with
     | none => .error (.valueError "badly formed hexadecimal UUID string")
     | some cid =>
       match findContent db cid user_id with
       | none => .error (.httpExc 404 "Content not found")
       | some c => .ok ⟨c.id, c.platform, c.content_type, c.title, c.content,
           c.status, c.source_data, c.user_edits, c.final_version⟩)

/-- Body of a PUT content update request: fields present in the JSON dict. -/
structure ContentUpdate where
  status : Option String
  user_edits : Option String
  final_version : Option String
  title : Option String
deriving Repr, DecidableEq

/-- Response of the content update endpoint. -/
structure UpdateContentResp where
  content_id : Nat
  status : String
  message : String
deriving Repr, DecidableEq

/-- PUT /agents/narrative-architect/content/(content_id)
(api/agents/narrative_architect.py lines 293-340): copies every provided
field, including an arbitrary client-supplied status string, verbatim into
the record.  The 404 raised inside the try block is wrapped into a 500 by
the blanket clause. -/
def update_content (parseUUID : String → Option Nat)
    (content_id : String) (content_update : ContentUpdate)
    (user_id : Nat) (db : DB) :
    DB × Except HttpError UpdateContentResp :=
  match parseUUID content_id with
  | none => (db, .error ⟨400, "Invalid content ID format"⟩)
  | some cid =>
    match findContent db cid user_id with
    | none =>
        (db, .error ⟨500, "Failed to update content: 404: Content not found"⟩)
    | some c =>
        let c1 := match content_update.status with
          | some s => { c with status := s }
          | none => c
        let c2 := match content_update.user_edits with
          | some v => { c1 with user_edits := some v }
          | none => c1
        let c3 := match content_update.final_version with
          | some v => { c2 with final_version := some v }
          | none => c2
        let c4 := match content_update.title with
          | some v => { c3 with title := some v }
          | none => c3
        (setContent db c4, .ok ⟨c4.id, c4.status, "Content updated successfully"⟩)

/-- Response of the competitor analysis submit endpoint (the queue-assigned
task handle in the real response is external and unmodelled). -/
structure SubmitAnalysisResp where
  activity_id : Nat
  status : String
  message : String
deriving Repr, DecidableEq

/-- POST /agents/market-maven/analyze (api/agents/market_maven.py lines
157-199).  No validation of the competitor_data payload is performed: the
handler logs a processing activity, queues the Celery task and returns.
The wall-clock timestamp is external and passed in as `now`. -/
def analyze_competitor_data (now : String) (competitor_data : String)
    (user_id : Nat) (db : DB) :
    DB × List QueuedTask × Except HttpError SubmitAnalysisResp :=
  let aid := db.nextId
  let activity : AgentActivity :=
    { id := aid, user_id := user_id, agent_type := "market_maven",
      action := "competitor_analysis_started", status := some "processing",
      activity_metadata := some { emptyMeta with
        data_length := some competitor_data.length, timestamp := some now },
      error_message := none, processing_time_seconds := none, tokens_used := none }
  let db1 := addActivity db activity
  (db1, [.competitorTask (toString aid) competitor_data user_id],
   .ok ⟨aid, "processing",
     "Competitor analysis started. Use the activity_id to check status."⟩)

/-- Response of the transcript upload endpoint. -/
structure UploadTranscriptResp where
  transcript_id : Nat
  title : String
  status : String
  file_metadata : Option FileMeta
  message : String
deriving Repr, DecidableEq

/-- Insert a new transcript row (db.add + commit + refresh). -/
def addTranscript (db : DB) (t : Transcript) : DB :=
  { db with transcripts := db.transcripts ++ [t], nextId := db.nextId + 1 }

/-- Python str.endswith. -/
def pyEndsWith (s suf : String) : Bool :=
  suf.toList.isSuffixOf s.toList

/-- POST /agents/user-whisperer/upload-transcript
(api/agents/user_whisperer.py lines 36-104).  Validates only the filename
extension; the decoded file content is stored without any emptiness check.
The 400 and 404 HTTPExceptions raised inside the try block are caught by
the blanket except Exception clause and wrapped into a 500. -/
def upload_transcript (now : String) (filename : String)
    (file_content : String) (title : String) (current_user_id : String)
    (db : DB) : DB × List QueuedTask × Except HttpError UploadTranscriptResp :=
  if !(pyEndsWith filename ".txt" || pyEndsWith filename ".md"
        || pyEndsWith filename ".docx") then
    (db, [], .error ⟨500,
      "Failed to upload transcript: 400: Only .txt, .md, and .docx files are supported"⟩)
  else
    match db.users.find? (fun u => u.firebase_uid == current_user_id) with
    | none =>
        (db, [], .error ⟨500, "Failed to upload transcript: 404: User not found"⟩)
    | some user =>
        let tid := db.nextId
        let t : Transcript :=
          { id := tid, user_id := user.id, title := title, content := file_content,
            file_metadata := some ⟨some filename, some file_content.length, some now⟩,
            status := "uploaded", analysis := none, insights := none,
            sentiment_score := none, key_themes := none, pain_points := none,
            feature_requests := none, error_message := none }
        let db1 := addTranscript db t
        (db1, [.transcriptTask tid user.id],
         .ok ⟨tid, title, "uploaded", t.file_metadata,
           "Transcript uploaded and processing started"⟩)

/-- Activity owned by user 1, used in concrete stores. -/
def mmActivity : AgentActivity :=
  ⟨1, 1, "market_maven", "competitor_analysis_started",
   some { emptyMeta with data_length := some 10 }, some "processing",
   none, none, none⟩

/-- Content record owned by user 1, used in concrete stores. -/
def mmContent : GeneratedContent :=
  ⟨1, 1, "social_post", some "linkedin", none, "Processing...", none, none,
   "processing", none, none⟩

/-- Store holding `mmActivity` and `mmContent`, both owned by user 1. -/
def mmDb : DB := ⟨[], [mmActivity], [mmContent], [], 2⟩

/-- UUID parser stub recognising two canonical literals. -/
def uuidStub : String → Option Nat := fun s =>
  if s = "00000000-0000-0000-0000-000000000001" then some 1
  else if s = "00000000-0000-0000-0000-000000000099" then some 99
  else none

/-- C5: polling status (and fetching results) for a record owned by another
user travels the deliberate 404-raise path, but the blanket except Exception
clause catches that HTTPException and re-raises it as a 500 whose detail
wraps the 404 message; the response is byte-identical to the response for a
well-formed id that matches no record at all (the indistinguishability the
claim asserts holds, but the surfaced error is 500, not NotFoundError). -/
theorem C5_ownership_masked_as_500 :
    get_analysis_status uuidStub "00000000-0000-0000-0000-000000000001" 2 mmDb
      = .error ⟨500, "Failed to get analysis status: 404: Analysis activity not found"⟩
    ∧ get_analysis_status uuidStub "00000000-0000-0000-0000-000000000099" 2 mmDb
      = get_analysis_status uuidStub "00000000-0000-0000-0000-000000000001" 2 mmDb
    ∧ get_content_status uuidStub "00000000-0000-0000-0000-000000000001" 2 mmDb
      = .error ⟨500, "Failed to get content status: 404: Content generation not found"⟩
    ∧ get_content_status uuidStub "00000000-0000-0000-0000-000000000099" 2 mmDb
      = get_content_status uuidStub "00000000-0000-0000-0000-000000000001" 2 mmDb
    ∧ get_analysis_results uuidStub "00000000-0000-0000-0000-000000000001" 2 mmDb
      = .error ⟨500, "Failed to get analysis results: 404: Analysis activity not found"⟩ := by
  refine ⟨rfl, rfl, rfl, rfl, rfl⟩

/-- C9: a record id that is not a syntactically valid UUID makes uuid.UUID
raise ValueError inside the try block; the dedicated except ValueError
clause turns this into a 400 invalid-format error (a raise inside an except
clause is not re-caught by the following clauses), and this response
differs from the one produced for a well-formed id matching no record, so
malformed ids are distinguishable from nonexistent ones. -/
theorem C9_malformed_id_bad_request (parseUUID : String → Option Nat)
    (s : String) (uid : Nat) (db : DB)
    (h : parseUUID s = none) :
    get_analysis_status parseUUID s uid db
      = .error ⟨400, "Invalid activity ID format"⟩
    ∧ get_content_status parseUUID s uid db
      = .error ⟨400, "Invalid content ID format"⟩
    ∧ (∀ s2 aid, parseUUID s2 = some aid → findActivity db aid uid = none →
        get_analysis_status parseUUID s2 uid db
          = .error ⟨500, "Failed to get analysis status: 404: Analysis activity not found"⟩
          ∧ get_analysis_status parseUUID s2 uid db ≠ get_analysis_status parseUUID s uid db) := by
  refine ⟨?_, ?_, ?_⟩
  · simp [get_analysis_status, runHandlers, h]
  · simp [get_content_status, runHandlers, h]
  · intro s2 aid h2 hfind
    have hres : get_analysis_status parseUUID s2 uid db
        = .error ⟨500, "Failed to get analysis status: 404: Analysis activity not found"⟩ := by
      simp [get_analysis_status, runHandlers, h2, hfind, pyStr]
      rfl
    refine ⟨hres, ?_⟩
    rw [hres]
    simp [get_analysis_status, runHandlers, h]

/-- Witness for C9 at a concrete malformed id, with a nonexistent
well-formed id for the contrast conjunct. -/
theorem C9_malformed_id_bad_request_witness :
    get_analysis_status uuidStub "not-a-uuid" 2 mmDb
      = .error ⟨400, "Invalid activity ID format"⟩
    ∧ get_content_status uuidStub "not-a-uuid" 2 mmDb
      = .error ⟨400, "Invalid content ID format"⟩
    ∧ (∀ s2 aid, uuidStub s2 = some aid → findActivity mmDb aid 2 = none →
        get_analysis_status uuidStub s2 2 mmDb
          = .error ⟨500, "Failed to get analysis status: 404: Analysis activity not found"⟩
          ∧ get_analysis_status uuidStub s2 2 mmDb
            ≠ get_analysis_status uuidStub "not-a-uuid" 2 mmDb) :=
  C9_malformed_id_bad_request uuidStub "not-a-uuid" 2 mmDb (by rfl)

/-- Content record with non-terminal status owned by user 3. -/
def procContent : GeneratedContent :=
  ⟨1, 3, "social_post", some "linkedin", none, "Processing...", none, none,
   "processing", none, none⟩

/-- Store holding only `procContent`. -/
def naDb : DB := ⟨[], [], [procContent], [], 2⟩

/-- C3 counterexample: the narrative-architect fetch-result endpoint
returns the record while its status is still processing — it does not fail
with NotReadyError on a record whose status is not completed. -/
theorem C3_counterexample_fetch_without_readiness_check :
    get_generated_content uuidStub "00000000-0000-0000-0000-000000000001" 3 naDb
      = .ok ⟨1, some "linkedin", "social_post", none, "Processing...",
          "processing", none, none, none⟩ := by
  rfl

/-- C3 (amended): the market-maven results endpoint rejects a record whose
status is not success — though the deliberate 400 NotReady rejection is
wrapped into a 500 by the blanket except clause — and returns the stored
results only when the status is success; the narrative-architect fetch
endpoint performs no readiness check and returns the record at any status. -/
theorem C3_amended_fetch_result
    (parseUUID : String → Option Nat) (sA sB sC : String)
    (uid ridA ridB ridC : Nat) (db : DB)
    (a a2 : AgentActivity) (m : ActivityMeta) (c : GeneratedContent)
    (hpA : parseUUID sA = some ridA) (hpB : parseUUID sB = some ridB)
    (hpC : parseUUID sC = some ridC)
    (ha : findActivity db ridA uid = some a) (hsa : a.status ≠ some "success")
    (ha2 : findActivity db ridC uid = some a2) (hsa2 : a2.status = some "success")
    (hm2 : a2.activity_metadata = some m)
    (hc : findContent db ridB uid = some c) :
    get_analysis_results parseUUID sA uid db
      = .error ⟨500,
          "Failed to get analysis results: 400: Analysis not completed. Current status: "
          ++ statusText a.status⟩
    ∧ get_analysis_results parseUUID sC uid db
      = .ok ⟨a2.id, a2.status, m.analysis_results.getD [],
          a2.processing_time_seconds, a2.tokens_used⟩
    ∧ get_generated_content parseUUID sB uid db
      = .ok ⟨c.id, c.platform, c.content_type, c.title, c.content, c.status,
          c.source_data, c.user_edits, c.final_version⟩ := by
  refine ⟨?_, ?_, ?_⟩
  · simp [get_analysis_results, runHandlers, hpA, ha, hsa, pyStr]
    rfl
  · simp [get_analysis_results, runHandlers, hpC, ha2, hsa2, hm2]
  · simp [get_generated_content, runHandlers, hpB, hc]

/-- Success activity with stored results, owned by user 1. -/
def doneActivity : AgentActivity :=
  ⟨99, 1, "market_maven", "competitor_analysis_started",
   some { emptyMeta with
     analysis_results := some [("executive_summary", "all quiet")],
     processing_started := some true, processing_completed := some true },
   some "success", none, none, none⟩

/-- Store with a processing activity, a success activity and a processing
content record, all owned by user 1. -/
def mixedDb : DB := ⟨[], [mmActivity, doneActivity], [mmContent], [], 100⟩

/-- Witness for C3 (amended) at a concrete store. -/
theorem C3_amended_fetch_result_witness :
    get_analysis_results uuidStub "00000000-0000-0000-0000-000000000001" 1 mixedDb
      = .error ⟨500,
          "Failed to get analysis results: 400: Analysis not completed. Current status: "
          ++ statusText mmActivity.status⟩
    ∧ get_analysis_results uuidStub "00000000-0000-0000-0000-000000000099" 1 mixedDb
      = .ok ⟨doneActivity.id, doneActivity.status,
          (({ emptyMeta with
              analysis_results := some [("executive_summary", "all quiet")],
              processing_started := some true,
              processing_completed := some true } : ActivityMeta).analysis_results).getD [],
          doneActivity.processing_time_seconds, doneActivity.tokens_used⟩
    ∧ get_generated_content uuidStub "00000000-0000-0000-0000-000000000001" 1 mixedDb
      = .ok ⟨mmContent.id, mmContent.platform, mmContent.content_type,
          mmContent.title, mmContent.content, mmContent.status,
          mmContent.source_data, mmContent.user_edits, mmContent.final_version⟩ :=
  C3_amended_fetch_result uuidStub
    "00000000-0000-0000-0000-000000000001" "00000000-0000-0000-0000-000000000001"
    "00000000-0000-0000-0000-000000000099" 1 1 1 99 mixedDb
    mmActivity doneActivity
    { emptyMeta with
      analysis_results := some [("executive_summary", "all quiet")],
      processing_started := some true, processing_completed := some true }
    mmContent
    (by rfl) (by rfl) (by rfl) (by rfl) (by decide) (by rfl) (by rfl) (by rfl) (by rfl)

/-- C4 counterexample: submitting an empty input payload does not fail with
ValidationError — the competitor analyze endpoint accepts it, creates one
activity row and returns 200, and the transcript upload endpoint stores an
empty decoded file and creates one transcript row. -/
theorem C4_counterexample_empty_payload_accepted :
    (analyze_competitor_data "2025-01-01T00:00:00" "" 1 ⟨[], [], [], [], 0⟩).2.2
      = .ok ⟨0, "processing",
          "Competitor analysis started. Use the activity_id to check status."⟩
    ∧ (analyze_competitor_data "2025-01-01T00:00:00" "" 1
        ⟨[], [], [], [], 0⟩).1.activities.length = 1
    ∧ (upload_transcript "2025-01-01T00:00:00" "feedback.txt" ""
        "Customer Feedback" "fb-1" ⟨[], [], [], [⟨5, "fb-1"⟩], 0⟩).1.transcripts.length = 1
    ∧ (∃ r, (upload_transcript "2025-01-01T00:00:00" "feedback.txt" ""
        "Customer Feedback" "fb-1" ⟨[], [], [], [⟨5, "fb-1"⟩], 0⟩).2.2 = .ok r) := by
  refine ⟨rfl, rfl, rfl, ⟨_, rfl⟩⟩

/-- C4 (amended): submit performs no emptiness validation — for every
payload, including the empty one, the competitor analyze endpoint succeeds,
appends exactly one activity row, and enqueues exactly one task carrying
the payload verbatim. -/
theorem C4_amended_no_emptiness_validation (now competitor_data : String)
    (uid : Nat) (db : DB) :
    (∃ resp, (analyze_competitor_data now competitor_data uid db).2.2 = .ok resp)
    ∧ (analyze_competitor_data now competitor_data uid db).1.activities.length
        = db.activities.length + 1
    ∧ (analyze_competitor_data now competitor_data uid db).2.1
        = [.competitorTask (toString db.nextId) competitor_data uid] := by
  refine ⟨⟨_, rfl⟩, ?_, rfl⟩
  simp [analyze_competitor_data, addActivity]

/-- Response of the content generation submit endpoint. -/
structure GenerateContentResp where
  content_id : Nat
  activity_id : Nat
  status : String
  message : String
deriving Repr, DecidableEq

/-- Insert a new generated content row (db.add + commit + refresh). -/
def addContent (db : DB) (c : GeneratedContent) : DB :=
  { db with contents := db.contents ++ [c], nextId := db.nextId + 1 }

/-- POST /agents/narrative-architect/generate
(api/agents/narrative_architect.py lines 86-155): creates the content
record with status processing and placeholder body, logs a processing
activity, queues the Celery task and returns. -/
def generate_content (now : String) (req : ContentGenerationRequest)
    (user_id : Nat) (db : DB) :
    DB × List QueuedTask × Except HttpError GenerateContentResp :=
  let cid := db.nextId
  let content_record : GeneratedContent :=
    { id := cid, user_id := user_id, content_type := req.content_type,
      platform := some req.platform, title := none, content := "Processing...",
      prompt_used := some ("Platform: " ++ req.platform ++ ", Type: " ++ req.content_type),
      source_data := some ⟨req.source_material, req.context, req.target_audience,
        req.brand_tone⟩,
      status := "processing", user_edits := none, final_version := none }
  let db1 := addContent db content_record
  let aid := db1.nextId
  let activity : AgentActivity :=
    { id := aid, user_id := user_id, agent_type := "narrative_architect",
      action := "content_generation_started", status := some "processing",
      activity_metadata := some { emptyMeta with
        content_id := some (toString cid), platform := some req.platform,
        content_type := some req.content_type,
        source_length := some req.source_material.length, timestamp := some now },
      error_message := none, processing_time_seconds := none, tokens_used := none }
  let db2 := addActivity db1 activity
  (db2, [.contentTask (toString aid) (toString cid) req user_id],
   .ok ⟨cid, aid, "processing",
     "Content generation started. Use the content_id to check status."⟩)

/-- Dictionary returned by process_content_generation_task on success. -/
structure ContentTaskReturn where
  status : String
  activity_id : String
  content_id : String
  content_preview : String
  message : String
deriving Repr, DecidableEq

/-- Worker task process_content_generation_task (celery_worker.py lines
220-326).  AIService.generate_content is abstracted by `gen`, a function of
the request fields forwarded to it; uuid.UUID by `parseUUID`.  The except
handler follows the Python locals: a ValueError from UUID(activity_id)
leaves both record variables unbound, so the handler just requests a retry;
a record variable bound to None makes the handler itself raise
AttributeError (permanent failure, nothing further written); an activity
whose metadata column is NULL makes the dict-splat merge raise TypeError
both in the body and again in the handler, so the task fails permanently
with nothing committed. -/
def process_content_generation_task
    (gen : ContentGenerationRequest → Except String GeneratedDict)
    (parseUUID : String → Option Nat)
    (activity_id content_id : String)
    (generation_request : ContentGenerationRequest) (user_id : Nat)
    (db : DB) : DB × TaskOutcome ContentTaskReturn :=
  match parseUUID activity_id with
  | none =>
      (db, .retry "ValueError: badly formed hexadecimal UUID string" 60 3)
  | some aid =>
    let activityVar := db.activities.find? (fun x => x.id == aid)
    match parseUUID content_id with
    | none =>
        (match activityVar with
         | none =>
             (db, .permanentFailure "AttributeError: NoneType object has no attribute status")
         | some a =>
           match a.activity_metadata with
           | none =>
               (db, .permanentFailure "TypeError: NoneType object is not a mapping")
           | some m =>
             let e := "ValueError: badly formed hexadecimal UUID string"
             let a2 := { a with
               status := some "error", error_message := some e,
               activity_metadata := some { m with
                 error := some e, processing_failed := some true } }
             (setActivity db a2, .retry e 60 3))
    | some cid =>
      let contentVar := db.contents.find? (fun x => x.id == cid)
      match activityVar with
      | none =>
          (db, .permanentFailure "AttributeError: NoneType object has no attribute status")
      | some a =>
        match contentVar with
        | none =>
            (match a.activity_metadata with
             | none =>
                 (db, .permanentFailure "TypeError: NoneType object is not a mapping")
             | some m =>
               let e := "Activity " ++ activity_id ++ " or Content "
                 ++ content_id ++ " not found"
               let a2 := { a with
                 status := some "error", error_message := some e,
                 activity_metadata := some { m with
                   error := some e, processing_failed := some true } }
               (setActivity db a2,
                .permanentFailure "AttributeError: NoneType object has no attribute status"))
        | some c =>
          match a.activity_metadata with
          | none =>
              (db, .permanentFailure "TypeError: NoneType object is not a mapping")
          | some m =>
            let m1 := { m with processing_started := some true }
            let a1 := { a with
              status := some "processing", activity_metadata := some m1 }
            let c1 := { c with status := "processing" }
            let db1 := setContent (setActivity db a1) c1
            match gen generation_request with
            | .ok g =>
                let c2 := { c1 with
                  content := g.content.getD "Content generation completed",
                  title := g.title, status := "draft" }
                let a2 := { a1 with
                  status := some "success",
                  activity_metadata := some { m1 with
                    generation_results := some g, processing_completed := some true,
                    content_length := some (g.content.getD "").length } }
                let db2 := setContent (setActivity db1 a2) c2
                (db2, .ok ⟨"completed", activity_id, content_id,
                  (g.content.getD "").take 100 ++ "...",
                  "Content generation processed successfully"⟩)
            | .error e =>
                let a2 := { a1 with
                  status := some "error", error_message := some e,
                  activity_metadata := some { m1 with
                    error := some e, processing_failed := some true } }
                let c2 := { c1 with status := "failed" }
                (setContent (setActivity db1 a2) c2, .retry e 60 3)

/-- Primary key replacement lemma for activity rows. -/
theorem find?_replace_eq_act_aux (l : List AgentActivity) (n : Nat)
    (t u : AgentActivity)
    (h : l.find? (fun x => x.id == n) = some t) (hu : u.id = n) :
    (l.map (fun x => if x.id == n then u else x)).find? (fun x => x.id == n) = some u := by
  induction l with
  | nil => simp at h
  | cons a l ih =>
      by_cases hx : (a.id == n) = true
      · have hx2 : a.id = n := by simpa using hx
        have hun : (u.id == n) = true := by simp [hu]
        simp [List.find?_cons, hx2, hun]
      · rw [List.find?_cons_of_neg _ (by simpa using hx)] at h
        simp only [List.map_cons]
        rw [if_neg (by simpa using hx)]
        rw [List.find?_cons_of_neg _ (by simpa using hx)]
        exact ih h

/-- Primary key replacement lemma for activity rows, replacement key given
explicitly. -/
theorem find?_replace_eq_act (l : List AgentActivity) (n k : Nat)
    (t u : AgentActivity)
    (h : l.find? (fun x => x.id == n) = some t) (hk : k = n) (hu : u.id = n) :
    (l.map (fun x => if x.id == k then u else x)).find? (fun x => x.id == n) = some u := by
  subst hk
  exact find?_replace_eq_act_aux l k t u h hu

/-- Primary key replacement lemma for generated content rows. -/
theorem find?_replace_eq_con_aux (l : List GeneratedContent) (n : Nat)
    (t u : GeneratedContent)
    (h : l.find? (fun x => x.id == n) = some t) (hu : u.id = n) :
    (l.map (fun x => if x.id == n then u else x)).find? (fun x => x.id == n) = some u := by
  induction l with
  | nil => simp at h
  | cons a l ih =>
      by_cases hx : (a.id == n) = true
      · have hx2 : a.id = n := by simpa using hx
        have hun : (u.id == n) = true := by simp [hu]
        simp [List.find?_cons, hx2, hun]
      · rw [List.find?_cons_of_neg _ (by simpa using hx)] at h
        simp only [List.map_cons]
        rw [if_neg (by simpa using hx)]
        rw [List.find?_cons_of_neg _ (by simpa using hx)]
        exact ih h

/-- Primary key replacement lemma for generated content rows, replacement
key given explicitly. -/
theorem find?_replace_eq_con (l : List GeneratedContent) (n k : Nat)
    (t u : GeneratedContent)
    (h : l.find? (fun x => x.id == n) = some t) (hk : k = n) (hu : u.id = n) :
    (l.map (fun x => if x.id == k then u else x)).find? (fun x => x.id == n) = some u := by
  subst hk
  exact find?_replace_eq_con_aux l k t u h hu

/-- Content record with status draft owned by user 3. -/
def draftContent : GeneratedContent :=
  ⟨1, 3, "social_post", some "linkedin", none, "Generated body", none, none,
   "draft", none, none⟩

/-- Store holding only `draftContent`. -/
def draftDb : DB := ⟨[], [], [draftContent], [], 2⟩

/-- C10 counterexample: the content update endpoint copies a client
supplied status verbatim, so a client can set the literal completed on a
GeneratedContent record and then observe it through the status poll. -/
theorem C10_counterexample_update_sets_completed :
    ((update_content uuidStub "00000000-0000-0000-0000-000000000001"
        ⟨some "completed", none, none, none⟩ 3 draftDb).2
      = .ok ⟨1, "completed", "Content updated successfully"⟩)
    ∧ (get_content_status uuidStub "00000000-0000-0000-0000-000000000001" 3
        (update_content uuidStub "00000000-0000-0000-0000-000000000001"
          ⟨some "completed", none, none, none⟩ 3 draftDb).1
      = .ok ⟨1, "completed", some "linkedin", "social_post"⟩) := by
  constructor <;> rfl

/-- C10 (amended): on every successful content generation execution the
executor sets the GeneratedContent record to draft and the activity to
success — neither the generate endpoint (which writes processing) nor the
executor ever writes the literal completed to either record — but the
content update endpoint copies an arbitrary client supplied status
verbatim, so a client can itself write and then observe completed. -/
theorem C10_amended_executor_statuses
    (gen : ContentGenerationRequest → Except String GeneratedDict)
    (parseUUID : String → Option Nat) (sA sC now : String)
    (req : ContentGenerationRequest) (uid aid cid : Nat) (db : DB)
    (a : AgentActivity) (m : ActivityMeta) (c : GeneratedContent)
    (g : GeneratedDict)
    (hpA : parseUUID sA = some aid) (hpC : parseUUID sC = some cid)
    (ha : db.activities.find? (fun x => x.id == aid) = some a)
    (hc : db.contents.find? (fun x => x.id == cid) = some c)
    (hm : a.activity_metadata = some m)
    (hg : gen req = .ok g) :
    (∃ c2, (process_content_generation_task gen parseUUID sA sC req uid
          db).1.contents.find? (fun x => x.id == cid) = some c2
        ∧ c2.status = "draft" ∧ c2.status ≠ "completed")
    ∧ (∃ a2, (process_content_generation_task gen parseUUID sA sC req uid
          db).1.activities.find? (fun x => x.id == aid) = some a2
        ∧ a2.status = some "success" ∧ a2.status ≠ some "completed")
    ∧ ((generate_content now req uid db).1.contents.getLast?).map
        (fun x => x.status) = some "processing"
    ∧ ((generate_content now req uid db).1.activities.getLast?).map
        (fun x => x.status) = some (some "processing") := by
  have haid : a.id = aid := by simpa using List.find?_some ha
  have hcid : c.id = cid := by simpa using List.find?_some hc
  refine ⟨?_, ?_, ?_, ?_⟩
  · have h1 := find?_replace_eq_con db.contents cid c.id c
      { c with status := "processing" } hc hcid hcid
    have h2 := find?_replace_eq_con _ cid c.id { c with status := "processing" }
      { c with
        content := g.content.getD "Content generation completed",
        title := g.title, status := "draft" } h1 hcid hcid
    refine ⟨{ c with
        content := g.content.getD "Content generation completed",
        title := g.title, status := "draft" }, ?_, rfl,
      by exact (by decide : ("draft" : String) ≠ "completed")⟩
    simp only [process_content_generation_task, hpA, hpC, ha, hc, hm, hg,
      setActivity, setContent]
    exact h2
  · have h1 := find?_replace_eq_act db.activities aid a.id a
      { a with
        status := some "processing",
        activity_metadata := some { m with processing_started := some true } }
      ha haid haid
    have h2 := find?_replace_eq_act _ aid a.id
      { a with
        status := some "processing",
        activity_metadata := some { m with processing_started := some true } }
      { a with
        status := some "success",
        activity_metadata := some { m with
          processing_started := some true, generation_results := some g,
          processing_completed := some true,
          content_length := some (g.content.getD "").length } } h1 haid haid
    refine ⟨{ a with
        status := some "success",
        activity_metadata := some { m with
          processing_started := some true, generation_results := some g,
          processing_completed := some true,
          content_length := some (g.content.getD "").length } }, ?_, rfl,
      by exact (by decide : (some "success" : Option String) ≠ some "completed")⟩
    simp only [process_content_generation_task, hpA, hpC, ha, hc, hm, hg,
      setActivity, setContent]
    exact h2
  · simp only [generate_content, addContent, addActivity]
    rw [getLast?_append_singleton]
    rfl
  · simp only [generate_content, addContent, addActivity]
    rw [getLast?_append_singleton]
    rfl

/-- Activity and content rows set up by a generate call, used as witness
store. -/
def genActivity : AgentActivity :=
  ⟨1, 3, "narrative_architect", "content_generation_started",
   some { emptyMeta with content_id := some "99" }, some "processing",
   none, none, none⟩

/-- Content record paired with `genActivity`. -/
def genContent : GeneratedContent :=
  ⟨99, 3, "social_post", some "linkedin", none, "Processing...", none, none,
   "processing", none, none⟩

/-- Store holding `genActivity` and `genContent`. -/
def genDb : DB := ⟨[], [genActivity], [genContent], [], 100⟩

/-- Provider stub producing a fixed generated dictionary. -/
def stubGen : ContentGenerationRequest → Except String GeneratedDict :=
  fun _ => .ok ⟨some "Launch post", some "Generated body"⟩

/-- Concrete content generation request. -/
def sampleReq : ContentGenerationRequest :=
  ⟨"linkedin", "social_post", "We shipped a feature", "",
   "product managers", "professional"⟩

/-- Witness for C10 (amended) at a concrete store, request and provider. -/
theorem C10_amended_executor_statuses_witness :
    (∃ c2, (process_content_generation_task stubGen uuidStub
          "00000000-0000-0000-0000-000000000001"
          "00000000-0000-0000-0000-000000000099" sampleReq 3
          genDb).1.contents.find? (fun x => x.id == 99) = some c2
        ∧ c2.status = "draft" ∧ c2.status ≠ "completed")
    ∧ (∃ a2, (process_content_generation_task stubGen uuidStub
          "00000000-0000-0000-0000-000000000001"
          "00000000-0000-0000-0000-000000000099" sampleReq 3
          genDb).1.activities.find? (fun x => x.id == 1) = some a2
        ∧ a2.status = some "success" ∧ a2.status ≠ some "completed")
    ∧ ((generate_content "2025-01-01T00:00:00" sampleReq 3 genDb).1.contents.getLast?).map
        (fun x => x.status) = some "processing"
    ∧ ((generate_content "2025-01-01T00:00:00" sampleReq 3 genDb).1.activities.getLast?).map
        (fun x => x.status) = some (some "processing") :=
  C10_amended_executor_statuses stubGen uuidStub
    "00000000-0000-0000-0000-000000000001" "00000000-0000-0000-0000-000000000099"
    "2025-01-01T00:00:00" sampleReq 3 1 99 genDb genActivity
    { emptyMeta with content_id := some "99" } genContent
    ⟨some "Launch post", some "Generated body"⟩
    (by rfl) (by rfl) (by rfl) (by rfl) (by rfl) (by rfl)

end DefineConsult
